import Mathlib

set_option maxRecDepth 40000

/-!
Verification of the SOLID-principles tutorial repository: a shallow
embedding of the TypeScript snippets (SRP, OCP, LSP, ISP, DIP examples)
and of the exact snippet-file / README-block texts, with theorems
settling the specification claims.
-/

/-! Text artifacts: exact contents of the standalone snippet files and of
the fenced README code blocks, captured character for character. -/

/-- Exact text captured from the repository (ocpGoodFile). -/
def ocpGoodFile : String :=
"// Good\ninterface Notifier \x7b\n    notify();\n\x7d\n\nclass EmailNotifier \x7b\n    notify() \x7b\n        // ...\n    \x7d\n\x7d\n\nclass SMSNotifier \x7b\n    notify() \x7b\n        // ...\n    \x7d\n\x7d\n\nclass Employee \x7b\n    private notifier;\n    public selectedNotifyChannel;\n\n    // By EmployeeEntity class we will read employee preferences from DB and will\n    // initialize Employee with proper notifier regarding selectedNotifyChannel\n    constructor(notifier: Notifier) \x7b\n        this.notifier = notifier;\n    \x7d\n\n    sendNotification() \x7b\n        this.notifier.notify();\n    \x7d\n\x7d\n\nclass NotifyManager \x7b\n    notifyAll(employees: Employee[]) \x7b\n        for (const employee of employees) \x7b\n            employee.sendNotification();\n        \x7d\n    \x7d\n\x7d"

/-- Exact text captured from the repository (srpFile). -/
def srpFile : String :=
"// Bad\nclass Salary \x7b\n\n    calculateSalary()\x7b\n        // ...\n    \x7d\n\n    printPaycheck()\x7b\n        // ...\n    \x7d\n\n    saveData()\x7b\n        // ...\n    \x7d\n\x7d\n\n// Good\nclass SalaryCalculate \x7b\n    calculate()\x7b\n        // ...\n    \x7d\n\x7d\n\nclass SalaryPaycheck \x7b\n    print()\x7b\n        // ...\n    \x7d\n\x7d\n\nclass SalaryPersistence \x7b\n    save()\x7b\n        // ...\n    \x7d\n\x7d"

/-- Exact text captured from the repository (ocpBadFile). -/
def ocpBadFile : String :=
"// Bad\nclass Employee \x7b\n    public selectedNotifyChannel;\n\n    public sendEmailNotification() \x7b\n        // ...\n    \x7d\n\n    public sendSMSNotification() \x7b\n        // ...\n    \x7d\n\x7d\n\nclass NotifyManager \x7b\n    notifyAll(employees: Employee[]) \x7b\n        for (const employee of employees) \x7b\n            switch (employee.selectedNotifyChannel) \x7b\n                case \x27SMS\x27:\n                    employee.sendSMSNotification();\n                    break;\n                case \x27Email\x27:\n                    employee.sendEmailNotification();\n                    break;\n                default:\n                    throw new Error(\x27Unknown Channel\x27);\n            \x7d\n        \x7d\n    \x7d\n\x7d"

/-- Exact text captured from the repository (readmeSrpBadBlock). -/
def readmeSrpBadBlock : String :=
"class Salary \x7b\n    calculateSalary()\x7b\n        // ...\n    \x7d\n\n    printPaycheck()\x7b\n        // ...\n    \x7d\n\n    saveData()\x7b\n        // ...\n    \x7d\n\x7d\n"

/-- Exact text captured from the repository (readmeSrpGoodBlock1). -/
def readmeSrpGoodBlock1 : String :=
"class SalaryCalculate \x7b\n    calculate()\x7b\n        // ...\n    \x7d\n\x7d\n"

/-- Exact text captured from the repository (readmeSrpGoodBlock2). -/
def readmeSrpGoodBlock2 : String :=
"class SalaryPaycheck \x7b\n    print()\x7b\n        // ...\n    \x7d\n\x7d\n"

/-- Exact text captured from the repository (readmeSrpGoodBlock3). -/
def readmeSrpGoodBlock3 : String :=
"class SalaryPersistence \x7b\n    save()\x7b\n        // ...\n    \x7d\n\x7d\n"

/-- Exact text captured from the repository (readmeOcpBadBlock1). -/
def readmeOcpBadBlock1 : String :=
"class Employee \x7b\n    selectedNotifyChannel: string;\n\n    sendEmailNotification() \x7b\n        // ...\n    \x7d\n\n    sendSMSNotification() \x7b\n        // ...\n    \x7d\n\x7d\n"

/-- Exact text captured from the repository (readmeOcpBadBlock2). -/
def readmeOcpBadBlock2 : String :=
"class NotifyManager \x7b\n    notifyAll(employees: Employee[]) \x7b\n        for (const employee of employees) \x7b\n            switch (employee.selectedNotifyChannel) \x7b\n                case \x27SMS\x27:\n                    employee.sendSMSNotification();\n                    break;\n                case \x27Email\x27:\n                    employee.sendEmailNotification();\n                    break;\n                default:\n                    throw new Error(\x27Unknown Channel\x27);\n            \x7d\n        \x7d\n    \x7d\n\x7d\n"

/-- Exact text captured from the repository (readmeOcpGoodBlock1). -/
def readmeOcpGoodBlock1 : String :=
"interface Notifier \x7b\n    notify();\n\x7d\n\nclass EmailNotifier implements Notifier \x7b\n    notify() \x7b\n        // ...\n    \x7d\n\x7d\n\nclass SMSNotifier implements Notifier \x7b\n    notify() \x7b\n        // ...\n    \x7d\n\x7d\n"

/-- Exact text captured from the repository (readmeOcpGoodBlock2). -/
def readmeOcpGoodBlock2 : String :=
"class Employee \x7b\n    private notifier;\n    public selectedNotifyChannel;\n\n    // By EmployeeEntity class we will read employee preferences from DB and will\n    // initialize Employee with proper notifier regarding selectedNotifyChannel\n    constructor(notifier: Notifier) \x7b\n        this.notifier = notifier;\n    \x7d\n\n    sendNotification() \x7b\n        this.notifier.notify();\n    \x7d\n\x7d\n"

/-- Exact text captured from the repository (readmeOcpGoodBlock3). -/
def readmeOcpGoodBlock3 : String :=
"class NotifyManager \x7b\n    notifyAll(employees: Employee[]) \x7b\n        for (const employee of employees) \x7b\n            employee.sendNotification();\n        \x7d\n    \x7d\n\x7d\n"

/-- Exact text captured from the repository (ocpGoodSeg1). -/
def ocpGoodSeg1 : String :=
"interface Notifier \x7b\n    notify();\n\x7d\n\nclass EmailNotifier"

/-- Exact text captured from the repository (ocpGoodSeg2). -/
def ocpGoodSeg2 : String :=
" \x7b\n    notify() \x7b\n        // ...\n    \x7d\n\x7d\n\nclass SMSNotifier"

/-- Exact text captured from the repository (ocpGoodSeg3). -/
def ocpGoodSeg3 : String :=
" \x7b\n    notify() \x7b\n        // ...\n    \x7d\n\x7d\n"

/-- Exact text captured from the repository (srpSeg1). -/
def srpSeg1 : String :=
"class Salary \x7b\n"

/-- Exact text captured from the repository (srpSeg2). -/
def srpSeg2 : String :=
"    calculateSalary()\x7b\n        // ...\n    \x7d\n\n    printPaycheck()\x7b\n        // ...\n    \x7d\n\n    saveData()\x7b\n        // ...\n    \x7d\n\x7d\n"

/-- Exact text captured from the repository (ocpBadSeg1). -/
def ocpBadSeg1 : String :=
"class Employee \x7b\n    "

/-- Exact text captured from the repository (ocpBadSeg2). -/
def ocpBadSeg2 : String :=
"\n\n    "

/-- Exact text captured from the repository (ocpBadSeg3). -/
def ocpBadSeg3 : String :=
"sendEmailNotification() \x7b\n        // ...\n    \x7d\n\n    "

/-- Exact text captured from the repository (ocpBadSeg4). -/
def ocpBadSeg4 : String :=
"sendSMSNotification() \x7b\n        // ...\n    \x7d\n\x7d\n"

/-- Whether the pattern is a prefix of the character list. -/
def leadsWith : List Char → List Char → Bool
  | [], _ => true
  | _ :: _, [] => false
  | p :: ps, c :: cs => p == c && leadsWith ps cs

/-- Number of (possibly overlapping) occurrences of a pattern in a list. -/
def countOcc (pat : List Char) : List Char → Nat
  | [] => 0
  | c :: rest => (if leadsWith pat (c :: rest) then 1 else 0) + countOcc pat rest

/-- Number of occurrences of the pattern string inside the string. -/
def countSub (s pat : String) : Nat := countOcc pat.data s.data

namespace SRP

/-- The SRP Bad class; it has no fields. -/
structure Salary

def Salary.calculateSalary (_ : Salary) : Unit := ()

def Salary.printPaycheck (_ : Salary) : Unit := ()

def Salary.saveData (_ : Salary) : Unit := ()

structure SalaryCalculate

def SalaryCalculate.calculate (_ : SalaryCalculate) : Unit := ()

structure SalaryPaycheck

def SalaryPaycheck.print (_ : SalaryPaycheck) : Unit := ()

structure SalaryPersistence

def SalaryPersistence.save (_ : SalaryPersistence) : Unit := ()

end SRP

namespace OCPBad

/-- OCP Bad Employee: a single public channel field. -/
structure Employee where
  selectedNotifyChannel : String
deriving DecidableEq

/-- Observable notification events: which send method ran for which employee. -/
inductive Event where
  | smsNotification (recipient : Employee)
  | emailNotification (recipient : Employee)
deriving DecidableEq

/-- Employee.sendSMSNotification: placeholder body, recorded as an event. -/
def Employee.sendSMSNotification (e : Employee) : Event := Event.smsNotification e

/-- Employee.sendEmailNotification: placeholder body, recorded as an event. -/
def Employee.sendEmailNotification (e : Employee) : Event := Event.emailNotification e

/-- NotifyManager.notifyAll: switch on selectedNotifyChannel, throwing
Error(Unknown Channel) on any other value. -/
def NotifyManager.notifyAll : List Employee → Except String (List Event)
  | [] => Except.ok []
  | e :: rest =>
    if e.selectedNotifyChannel = "SMS" then
      (NotifyManager.notifyAll rest).map (fun evs => e.sendSMSNotification :: evs)
    else if e.selectedNotifyChannel = "Email" then
      (NotifyManager.notifyAll rest).map (fun evs => e.sendEmailNotification :: evs)
    else
      Except.error "Unknown Channel"

/-- The event produced for an employee whose channel is SMS or Email. -/
def notifyEvent (e : Employee) : Event :=
  if e.selectedNotifyChannel = "SMS" then e.sendSMSNotification
  else e.sendEmailNotification

end OCPBad

namespace OCPGood

/-- The two Notifier implementations present in the repository. -/
inductive Notifier where
  | emailNotifier
  | smsNotifier
deriving DecidableEq

/-- Observable event: the notify method of a given notifier ran. -/
inductive Event where
  | notified (n : Notifier)
deriving DecidableEq

/-- Dynamic dispatch of notify to the implementing class; both
implementations are placeholder bodies and cannot throw. -/
def Notifier.notify : Notifier → Except String Event
  | Notifier.emailNotifier => Except.ok (Event.notified Notifier.emailNotifier)
  | Notifier.smsNotifier => Except.ok (Event.notified Notifier.smsNotifier)

/-- OCP Good Employee: injected notifier plus the (unused) channel field. -/
structure Employee where
  notifier : Notifier
  selectedNotifyChannel : String

/-- Employee.sendNotification delegates to the injected notifier. -/
def Employee.sendNotification (e : Employee) : Except String Event :=
  e.notifier.notify

/-- NotifyManager.notifyAll: call sendNotification on each employee in order. -/
def NotifyManager.notifyAll : List Employee → Except String (List Event)
  | [] => Except.ok []
  | e :: rest =>
    match e.sendNotification with
    | Except.ok ev => (NotifyManager.notifyAll rest).map (fun evs => ev :: evs)
    | Except.error m => Except.error m

end OCPGood

namespace LSPBad

/-- LSP Bad Rectangle state: the width and height fields. -/
structure Rectangle where
  width : Int
  height : Int
deriving DecidableEq

/-- The Rectangle constructor sets both fields to 0. -/
def Rectangle.new : Rectangle := { width := 0, height := 0 }

def Rectangle.setColor (r : Rectangle) (_color : String) : Rectangle := r

def Rectangle.render (r : Rectangle) (_area : Int) : Rectangle := r

def Rectangle.setWidth (r : Rectangle) (width : Int) : Rectangle :=
  { r with width := width }

def Rectangle.setHeight (r : Rectangle) (height : Int) : Rectangle :=
  { r with height := height }

def Rectangle.getArea (r : Rectangle) : Int := r.width * r.height

/-- Square extends Rectangle and adds no fields; a fresh Square is built by
the inherited Rectangle constructor. -/
def Square.new : Rectangle := Rectangle.new

/-- Square.setWidth overrides the parent: it sets both fields. -/
def Square.setWidth (_s : Rectangle) (width : Int) : Rectangle :=
  { width := width, height := width }

/-- Square.setHeight overrides the parent: it sets both fields. -/
def Square.setHeight (_s : Rectangle) (height : Int) : Rectangle :=
  { width := height, height := height }

/-- The methods callable on a Square (setters overridden, the rest inherited). -/
inductive SquareOp where
  | setWidth (width : Int)
  | setHeight (height : Int)
  | setColor (color : String)
  | render (area : Int)

def Square.applyOp (s : Rectangle) : SquareOp → Rectangle
  | SquareOp.setWidth w => Square.setWidth s w
  | SquareOp.setHeight h => Square.setHeight s h
  | SquareOp.setColor c => Rectangle.setColor s c
  | SquareOp.render a => Rectangle.render s a

def Square.applyOps : Rectangle → List SquareOp → Rectangle
  | s, [] => s
  | s, op :: rest => Square.applyOps (Square.applyOp s op) rest

end LSPBad

namespace LSPGood

structure Shape

def Shape.setColor (s : Shape) (_color : String) : Shape := s

def Shape.render (s : Shape) (_area : Int) : Shape := s

structure Rectangle where
  width : Int
  height : Int

def Rectangle.getArea (r : Rectangle) : Int := r.width * r.height

structure Square where
  length : Int

def Square.getArea (s : Square) : Int := s.length * s.length

end LSPGood

namespace ISPBad

structure EmailNotifier

def EmailNotifier.notify (_ : EmailNotifier) : Except String Unit := Except.ok ()

def EmailNotifier.attachFile (_ : EmailNotifier) : Except String Unit := Except.ok ()

structure SMSNotifier

def SMSNotifier.notify (_ : SMSNotifier) : Except String Unit := Except.ok ()

/-- SMSNotifier.attachFile throws unconditionally. -/
def SMSNotifier.attachFile (_ : SMSNotifier) : Except String Unit :=
  Except.error "SMS doesn\x27t support attaching files"

end ISPBad

namespace ISPGood

structure EmailNotifier

def EmailNotifier.notify (_ : EmailNotifier) : Except String Unit := Except.ok ()

def EmailNotifier.attachFile (_ : EmailNotifier) : Except String Unit := Except.ok ()

structure SMSNotifier

def SMSNotifier.notify (_ : SMSNotifier) : Except String Unit := Except.ok ()

end ISPGood

namespace DIPBad

structure MySQLConnection

/-- MySQLConnection.connect returns the string Database connection. -/
def MySQLConnection.connect (_ : MySQLConnection) : String := "Database connection"

structure AppInit where
  dbConnection : MySQLConnection

end DIPBad

namespace DIPGood

structure MySQLConnection

def MySQLConnection.connect (_ : MySQLConnection) : String := "Database connection"

structure AppInit where
  dbConnection : MySQLConnection

end DIPGood

deriving instance DecidableEq for Except

/-! Helper lemmas. -/

theorem except_map_eq_error {α β : Type} (f : α → β) (x : Except String α) (m : String) :
    x.map f = Except.error m ↔ x = Except.error m := by
  cases x <;> simp [Except.map]

theorem ocpbad_notifyAll_error_iff (emps : List OCPBad.Employee) :
    OCPBad.NotifyManager.notifyAll emps = Except.error "Unknown Channel" ↔
      ∃ e ∈ emps, e.selectedNotifyChannel ≠ "SMS" ∧ e.selectedNotifyChannel ≠ "Email" := by
  induction emps with
  | nil => simp [OCPBad.NotifyManager.notifyAll]
  | cons e rest ih =>
    by_cases hs : e.selectedNotifyChannel = "SMS"
    · simp [OCPBad.NotifyManager.notifyAll, hs, except_map_eq_error, ih]
    · by_cases he : e.selectedNotifyChannel = "Email"
      · simp [OCPBad.NotifyManager.notifyAll, hs, he, except_map_eq_error, ih]
      · simp only [OCPBad.NotifyManager.notifyAll, hs, he, if_false]
        constructor
        · intro _
          exact ⟨e, List.mem_cons_self e rest, hs, he⟩
        · intro _
          trivial

theorem ocpbad_notifyAll_ok (emps : List OCPBad.Employee) :
    (∀ e ∈ emps, e.selectedNotifyChannel = "SMS" ∨ e.selectedNotifyChannel = "Email") →
      OCPBad.NotifyManager.notifyAll emps = Except.ok (emps.map OCPBad.notifyEvent) := by
  induction emps with
  | nil =>
    intro _
    rfl
  | cons e rest ih =>
    intro h
    have hrest := ih (fun x hx => h x (List.mem_cons_of_mem e hx))
    rcases h e (List.mem_cons_self e rest) with hs | he
    · simp [OCPBad.NotifyManager.notifyAll, hs, hrest, Except.map, OCPBad.notifyEvent]
    · by_cases hs : e.selectedNotifyChannel = "SMS"
      · simp [OCPBad.NotifyManager.notifyAll, hs, hrest, Except.map, OCPBad.notifyEvent]
      · simp [OCPBad.NotifyManager.notifyAll, hs, he, hrest, Except.map, OCPBad.notifyEvent]

theorem ocpgood_notify_eq (n : OCPGood.Notifier) :
    n.notify = Except.ok (OCPGood.Event.notified n) := by
  cases n <;> rfl

theorem ocpgood_notifyAll_eq (emps : List OCPGood.Employee) :
    OCPGood.NotifyManager.notifyAll emps =
      Except.ok (emps.map fun e => OCPGood.Event.notified e.notifier) := by
  induction emps with
  | nil => rfl
  | cons e rest ih =>
    have hsend : e.sendNotification = Except.ok (OCPGood.Event.notified e.notifier) :=
      ocpgood_notify_eq e.notifier
    simp [OCPGood.NotifyManager.notifyAll, hsend, ih, Except.map]

theorem square_applyOp_inv (s : LSPBad.Rectangle) (op : LSPBad.SquareOp)
    (h : s.width = s.height) :
    (LSPBad.Square.applyOp s op).width = (LSPBad.Square.applyOp s op).height := by
  cases op <;>
    simp [LSPBad.Square.applyOp, LSPBad.Square.setWidth, LSPBad.Square.setHeight,
      LSPBad.Rectangle.setColor, LSPBad.Rectangle.render, h]

theorem square_applyOps_inv (ops : List LSPBad.SquareOp) :
    ∀ s : LSPBad.Rectangle, s.width = s.height →
      (LSPBad.Square.applyOps s ops).width = (LSPBad.Square.applyOps s ops).height := by
  induction ops with
  | nil =>
    intro s h
    exact h
  | cons op rest ih =>
    intro s h
    exact ih (LSPBad.Square.applyOp s op) (square_applyOp_inv s op h)

/-! Claim theorems. -/

/-- Claim C1, counterexample: not every method is an empty placeholder.
Rectangle.getArea (LSP Bad) computes a state-dependent value,
Rectangle.setWidth mutates the width field, MySQLConnection.connect (DIP Bad)
returns the string Database connection, SMSNotifier.attachFile (ISP Bad)
throws, and NotifyManager.notifyAll (OCP Bad) throws on an unknown channel. -/
theorem C1_counterexample :
    LSPBad.Rectangle.getArea { width := 4, height := 5 } ≠
      LSPBad.Rectangle.getArea { width := 0, height := 0 } ∧
    LSPBad.Rectangle.setWidth { width := 0, height := 0 } 4 ≠
      ({ width := 0, height := 0 } : LSPBad.Rectangle) ∧
    DIPBad.MySQLConnection.connect ⟨⟩ = "Database connection" ∧
    ISPBad.SMSNotifier.attachFile ⟨⟩ =
      Except.error "SMS doesn\x27t support attaching files" ∧
    OCPBad.NotifyManager.notifyAll [{ selectedNotifyChannel := "WhatsApp" }] =
      Except.error "Unknown Channel" := by
  refine ⟨by decide, by decide, rfl, rfl, by decide⟩

/-- Claim C1, amended: the SRP methods, the notify methods, setColor and
render have placeholder bodies that do nothing, but the remaining methods are
not placeholders: the LSP setters assign fields, the getArea methods return
the product of their fields, MySQLConnection.connect returns a string,
Employee.sendNotification (OCP Good) delegates to the injected notifier,
NotifyManager.notifyAll (OCP Bad) throws on unknown channels, and
SMSNotifier.attachFile (ISP Bad) throws. -/
theorem C1_amended (s : SRP.Salary) (r : LSPBad.Rectangle) (w h : Int)
    (q : LSPGood.Rectangle) (sq : LSPGood.Square) (e : OCPGood.Employee)
    (c : DIPBad.MySQLConnection) (d : DIPGood.MySQLConnection)
    (x : ISPBad.SMSNotifier) :
    s.calculateSalary = () ∧ s.printPaycheck = () ∧ s.saveData = () ∧
    r.setColor "red" = r ∧ r.render 20 = r ∧
    (r.setWidth w).width = w ∧ (r.setWidth w).height = r.height ∧
    (r.setHeight h).height = h ∧ (r.setHeight h).width = r.width ∧
    (LSPBad.Square.setWidth r w) = { width := w, height := w } ∧
    (LSPBad.Square.setHeight r h) = { width := h, height := h } ∧
    r.getArea = r.width * r.height ∧
    q.getArea = q.width * q.height ∧
    sq.getArea = sq.length * sq.length ∧
    c.connect = "Database connection" ∧
    d.connect = "Database connection" ∧
    e.sendNotification = e.notifier.notify ∧
    x.attachFile = Except.error "SMS doesn\x27t support attaching files" ∧
    OCPBad.NotifyManager.notifyAll [{ selectedNotifyChannel := "WhatsApp" }] =
      Except.error "Unknown Channel" := by
  refine ⟨rfl, rfl, rfl, rfl, rfl, rfl, rfl, rfl, rfl, rfl, rfl, rfl, rfl, rfl,
    rfl, rfl, rfl, rfl, by decide⟩

/-- Claim C2, counterexample: the standalone OCP Good snippet file does not
match the corresponding README blocks character for character; the README
block contains two occurrences of implements Notifier while the file
contains none. -/
theorem C2_counterexample :
    ocpGoodFile ≠
      readmeOcpGoodBlock1 ++ "\n" ++ readmeOcpGoodBlock2 ++ "\n" ++
        readmeOcpGoodBlock3 ∧
    ocpGoodFile ++ "\n" ≠
      "// Good\n" ++ readmeOcpGoodBlock1 ++ "\n" ++ readmeOcpGoodBlock2 ++ "\n" ++
        readmeOcpGoodBlock3 ∧
    countSub readmeOcpGoodBlock1 "implements Notifier" = 2 ∧
    countSub ocpGoodFile "implements Notifier" = 0 := by
  refine ⟨by decide, by decide, by decide, by decide⟩

/-- Claim C2, amended: no standalone snippet file equals its README blocks
verbatim; each file is the blocks joined by blank lines with marker comment
lines added and with systematic edits: the OCP Good file drops both
implements Notifier clauses, the SRP file inserts a blank line after the
Salary class header, and the OCP Bad file declares its members with the
public modifier and without the string type annotation. -/
theorem C2_amended :
    readmeOcpGoodBlock1 =
      ocpGoodSeg1 ++ " implements Notifier" ++ ocpGoodSeg2 ++
        " implements Notifier" ++ ocpGoodSeg3 ∧
    ocpGoodFile ++ "\n" =
      "// Good\n" ++ ocpGoodSeg1 ++ ocpGoodSeg2 ++ ocpGoodSeg3 ++ "\n" ++
        readmeOcpGoodBlock2 ++ "\n" ++ readmeOcpGoodBlock3 ∧
    readmeSrpBadBlock = srpSeg1 ++ srpSeg2 ∧
    srpFile ++ "\n" =
      "// Bad\n" ++ srpSeg1 ++ "\n" ++ srpSeg2 ++ "\n// Good\n" ++
        readmeSrpGoodBlock1 ++ "\n" ++ readmeSrpGoodBlock2 ++ "\n" ++
        readmeSrpGoodBlock3 ∧
    readmeOcpBadBlock1 =
      ocpBadSeg1 ++ "selectedNotifyChannel: string;" ++ ocpBadSeg2 ++
        ocpBadSeg3 ++ ocpBadSeg4 ∧
    ocpBadFile ++ "\n" =
      "// Bad\n" ++ ocpBadSeg1 ++ "public selectedNotifyChannel;" ++ ocpBadSeg2 ++
        "public " ++ ocpBadSeg3 ++ "public " ++ ocpBadSeg4 ++ "\n" ++
        readmeOcpBadBlock2 := by
  refine ⟨by decide, by decide, by decide, by decide, by decide, by decide⟩

/-- Claim C3: in the OCP Bad example, notifyAll throws Error(Unknown Channel)
iff the list contains an employee whose channel is neither SMS nor Email; when
every channel is SMS or Email, each employee is notified via the matching send
method, in list order, and no error is thrown. -/
theorem C3 (emps : List OCPBad.Employee) :
    ((∃ e ∈ emps, e.selectedNotifyChannel ≠ "SMS" ∧ e.selectedNotifyChannel ≠ "Email") ↔
      OCPBad.NotifyManager.notifyAll emps = Except.error "Unknown Channel") ∧
    ((∀ e ∈ emps, e.selectedNotifyChannel = "SMS" ∨ e.selectedNotifyChannel = "Email") →
      OCPBad.NotifyManager.notifyAll emps = Except.ok (emps.map OCPBad.notifyEvent)) :=
  ⟨(ocpbad_notifyAll_error_iff emps).symm, ocpbad_notifyAll_ok emps⟩

/-- Claim C3, witness: a concrete all-valid list succeeds with the matching
events, and a concrete list holding a WhatsApp employee throws. -/
theorem C3_witness :
    OCPBad.NotifyManager.notifyAll
        [{ selectedNotifyChannel := "SMS" }, { selectedNotifyChannel := "Email" }] =
      Except.ok
        [OCPBad.Event.smsNotification { selectedNotifyChannel := "SMS" },
          OCPBad.Event.emailNotification { selectedNotifyChannel := "Email" }] ∧
    OCPBad.NotifyManager.notifyAll [{ selectedNotifyChannel := "WhatsApp" }] =
      Except.error "Unknown Channel" := by
  constructor
  · exact (C3 [{ selectedNotifyChannel := "SMS" },
      { selectedNotifyChannel := "Email" }]).2 (by decide)
  · exact (C3 [{ selectedNotifyChannel := "WhatsApp" }]).1.mp (by decide)

/-- Claim C4: in the ISP Bad example, SMSNotifier.attachFile always throws an
Error whose message says SMS does not support attaching files, while
SMSNotifier.notify never throws. -/
theorem C4 (n : ISPBad.SMSNotifier) :
    n.attachFile = Except.error "SMS doesn\x27t support attaching files" ∧
    n.notify = Except.ok () :=
  ⟨rfl, rfl⟩

/-- Claim C5: in the LSP Bad example, setWidth(4) then setHeight(5) then
getArea() on a fresh Square returns 25, while the same sequence on a fresh
Rectangle returns 20, getArea being width times height. -/
theorem C5 :
    LSPBad.Rectangle.getArea
        (LSPBad.Square.setHeight (LSPBad.Square.setWidth LSPBad.Square.new 4) 5) = 25 ∧
    LSPBad.Rectangle.getArea
        (LSPBad.Rectangle.setHeight (LSPBad.Rectangle.setWidth LSPBad.Rectangle.new 4) 5) =
      20 ∧
    ∀ r : LSPBad.Rectangle, r.getArea = r.width * r.height :=
  ⟨by decide, by decide, fun _ => rfl⟩

/-- Claim C6: in the LSP Bad example, every Square satisfies width = height:
it holds for a fresh Square and is preserved by every sequence of Square
method calls. -/
theorem C6 :
    LSPBad.Square.new.width = LSPBad.Square.new.height ∧
    ∀ ops : List LSPBad.SquareOp,
      (LSPBad.Square.applyOps LSPBad.Square.new ops).width =
        (LSPBad.Square.applyOps LSPBad.Square.new ops).height :=
  ⟨rfl, fun ops => square_applyOps_inv ops LSPBad.Square.new rfl⟩

/-- Claim C7: in the OCP Good example, notifyAll produces exactly one
notification per employee, in list order, each delegated to the injected
notifier, and it never throws, regardless of any selectedNotifyChannel. -/
theorem C7 (emps : List OCPGood.Employee) :
    OCPGood.NotifyManager.notifyAll emps =
      Except.ok (emps.map fun e => OCPGood.Event.notified e.notifier) ∧
    ∀ e : OCPGood.Employee, e.sendNotification = e.notifier.notify :=
  ⟨ocpgood_notifyAll_eq emps, fun _ => rfl⟩

/-- Claim C8, counterexample: the snippet fields do carry semantics in places:
Rectangle.setWidth assigns the width field, Rectangle.getArea reads both
fields to compute its result, and the OCP Bad notifyAll branches on the
selectedNotifyChannel field. -/
theorem C8_counterexample :
    (LSPBad.Rectangle.setWidth { width := 0, height := 0 } 4).width = 4 ∧
    LSPBad.Rectangle.getArea { width := 4, height := 5 } = 20 ∧
    LSPBad.Rectangle.getArea { width := 2, height := 3 } = 6 ∧
    OCPBad.NotifyManager.notifyAll [{ selectedNotifyChannel := "SMS" }] ≠
      OCPBad.NotifyManager.notifyAll [{ selectedNotifyChannel := "Fax" }] := by
  refine ⟨rfl, by decide, by decide, by decide⟩

/-- Claim C8, amended: the selectedNotifyChannel field of the OCP Good
Employee is indeed never read (sendNotification and notifyAll are invariant
under changing it), but the LSP Rectangle fields are assigned by setWidth and
read by getArea, and the OCP Bad notifyAll branches on
selectedNotifyChannel. -/
theorem C8_amended (n : OCPGood.Notifier) (c1 c2 : String)
    (emps : List OCPGood.Employee) (f : OCPGood.Employee → String)
    (r : LSPBad.Rectangle) (w : Int) :
    OCPGood.Employee.sendNotification { notifier := n, selectedNotifyChannel := c1 } =
      OCPGood.Employee.sendNotification { notifier := n, selectedNotifyChannel := c2 } ∧
    OCPGood.NotifyManager.notifyAll
        (emps.map fun e => { notifier := e.notifier, selectedNotifyChannel := f e }) =
      OCPGood.NotifyManager.notifyAll emps ∧
    (LSPBad.Rectangle.setWidth r w).width = w ∧
    LSPBad.Rectangle.getArea r = r.width * r.height ∧
    OCPBad.NotifyManager.notifyAll [{ selectedNotifyChannel := "SMS" }] ≠
      OCPBad.NotifyManager.notifyAll [{ selectedNotifyChannel := "Fax" }] := by
  refine ⟨rfl, ?_, rfl, rfl, by decide⟩
  rw [ocpgood_notifyAll_eq, ocpgood_notifyAll_eq, List.map_map]
  rfl
